import Mathlib

/-!
Verification development for the tt-umd repository's queue/transport layer.

The executable definitions below are a shallow embedding of
`scripts/noc_read_stress.py`: the ETH command-queue layout constants, the
queue full/pending arithmetic, the `sys_addr` decoder, and the control flow
of the `--read-resp` dequeue and the request-queue dump in `main`.  A small
model of the topology-discovery engine (whose C++ implementation is not part
of the Python sources) is built from the specification's description.
-/

/-! ## Queue layout constants (scripts/noc_read_stress.py, lines 70-115) -/

def ETH_ROUTING_STRUCT_ADDR : Nat := 0x11000

def REQUEST_CMD_QUEUE_BASE : Nat := ETH_ROUTING_STRUCT_ADDR + 128

def CMD_COUNTERS_SIZE_BYTES : Nat := 32

def REMOTE_UPDATE_PTR_SIZE_BYTES : Nat := 16

def CMD_BUF_SIZE : Nat := 4

def CMD_SIZE_BYTES : Nat := 32

def CMD_Q_SIZE_BYTES : Nat :=
  2 * REMOTE_UPDATE_PTR_SIZE_BYTES + CMD_COUNTERS_SIZE_BYTES
    + CMD_BUF_SIZE * CMD_SIZE_BYTES

def RESPONSE_CMD_QUEUE_BASE : Nat := REQUEST_CMD_QUEUE_BASE + 2 * CMD_Q_SIZE_BYTES

def REQ_WRPTR_ADDR : Nat := REQUEST_CMD_QUEUE_BASE + CMD_COUNTERS_SIZE_BYTES + 0

def REQ_RDPTR_ADDR : Nat :=
  REQUEST_CMD_QUEUE_BASE + CMD_COUNTERS_SIZE_BYTES + REMOTE_UPDATE_PTR_SIZE_BYTES + 0

def RESP_WRPTR_ADDR : Nat := RESPONSE_CMD_QUEUE_BASE + CMD_COUNTERS_SIZE_BYTES + 0

def RESP_RDPTR_ADDR : Nat :=
  RESPONSE_CMD_QUEUE_BASE + CMD_COUNTERS_SIZE_BYTES + REMOTE_UPDATE_PTR_SIZE_BYTES + 0

def REQUEST_ROUTING_CMD_QUEUE_BASE : Nat :=
  REQUEST_CMD_QUEUE_BASE + REMOTE_UPDATE_PTR_SIZE_BYTES * 2 + CMD_COUNTERS_SIZE_BYTES

def RESPONSE_ROUTING_CMD_QUEUE_BASE : Nat :=
  RESPONSE_CMD_QUEUE_BASE + REMOTE_UPDATE_PTR_SIZE_BYTES * 2 + CMD_COUNTERS_SIZE_BYTES

def CMD_BUF_PTR_MASK : Nat := (CMD_BUF_SIZE <<< 1) - 1

def REQ_CMD_Q0_BASE : Nat := 0x11080

def REQ_CMD_Q1_BASE : Nat := 0x11140

def RESP_CMD_Q_BASE : Nat := 0x11200

def ETH_OUT_REQ_CMD_Q_BASE : Nat := 0x112C0

def NODE_CMD_BUF_SIZE : Nat := 8

def NODE_REQ_CMD_Q0_BASE : Nat := 0x11380

def NODE_REQ_CMD_Q1_BASE : Nat := 0x114C0

def NODE_RESP_CMD_Q0_BASE : Nat := 0x11600

def NODE_RESP_CMD_Q1_BASE : Nat := 0x11740

/-- Embeds `_wrptr_addr` from the script (leading underscore dropped). -/
def wrptr_addr (base : Nat) : Nat := base + CMD_COUNTERS_SIZE_BYTES + 0

/-- Embeds `_rdptr_addr` from the script (leading underscore dropped). -/
def rdptr_addr (base : Nat) : Nat :=
  base + CMD_COUNTERS_SIZE_BYTES + REMOTE_UPDATE_PTR_SIZE_BYTES + 0

/-! ## Queue full / pending arithmetic (lines 126-141) -/

/-- Embeds `_is_full_4slot`: `(wr != rd) and ((wr & 3) == (rd & 3))`. -/
def is_full_4slot (wr rd : Nat) : Bool := (wr != rd) && ((wr &&& 3) == (rd &&& 3))

/-- Embeds `_is_full_8slot`: `(wr != rd) and ((wr & 7) == (rd & 7))`. -/
def is_full_8slot (wr rd : Nat) : Bool := (wr != rd) && ((wr &&& 7) == (rd &&& 7))

/-- Embeds `_pending_4slot`; Python integers are modelled by `Int`, so the
else branch can go negative exactly as in the script. -/
def pending_4slot (wr rd : Int) : Int :=
  if wr ≥ rd then wr - rd else (CMD_BUF_SIZE : Int) + wr - rd

/-- Embeds `_pending_8slot`. -/
def pending_8slot (wr rd : Int) : Int :=
  if wr ≥ rd then wr - rd else (NODE_CMD_BUF_SIZE : Int) + wr - rd

/-! ## NOC address decoder (lines 160-176) -/

def NOC_ADDR_LOCAL_BITS : Nat := 36

def NOC_ADDR_NODE_ID_BITS : Nat := 6

/-- Embeds `decode_sys_addr`: split a packed `sys_addr` into
`(chip_y, chip_x, noc_y, noc_x, offset)` by shifting and masking, exactly
as in the script. -/
def decode_sys_addr (addr : Nat) : Nat × Nat × Nat × Nat × Nat :=
  let node_mask := (1 <<< NOC_ADDR_NODE_ID_BITS) - 1
  let local_mask := (1 <<< NOC_ADDR_LOCAL_BITS) - 1
  let offset := addr &&& local_mask
  let noc_x := (addr >>> NOC_ADDR_LOCAL_BITS) &&& node_mask
  let noc_y := (addr >>> (NOC_ADDR_LOCAL_BITS + NOC_ADDR_NODE_ID_BITS)) &&& node_mask
  let chip_x := (addr >>> (NOC_ADDR_LOCAL_BITS + 2 * NOC_ADDR_NODE_ID_BITS)) &&& node_mask
  let chip_y := (addr >>> (NOC_ADDR_LOCAL_BITS + 3 * NOC_ADDR_NODE_ID_BITS)) &&& node_mask
  (chip_y, chip_x, noc_y, noc_x, offset)

/-! ## Control flow of `main` around the queues (lines 361-408) -/

/-- Embeds the `--read-resp` branch of `main` (lines 361-377).  Given the
flag and the response-queue pointers read from hardware, it returns
`some (slot_idx, new_rdptr)` when a slot is dequeued — `slot_idx` is the
slot index read and `new_rdptr` the value written back to
`RESP_RDPTR_ADDR` — and `none` when nothing is dequeued and no write
happens. -/
def read_resp_step (read_resp : Bool) (resp_wrptr resp_rdptr : Nat) :
    Option (Nat × Nat) :=
  if read_resp = true ∧ resp_wrptr ≠ resp_rdptr then
    let slot_idx := resp_rdptr &&& (CMD_BUF_SIZE - 1)
    let new_rdptr := (resp_rdptr + 1) &&& CMD_BUF_PTR_MASK
    some (slot_idx, new_rdptr)
  else
    none

/-- Embeds the pending-count computation of the request-queue dump
(lines 380-383): `(req_wrptr - req_rdptr) % (CMD_BUF_PTR_MASK + 1)` in
Python integer arithmetic, capped at `CMD_BUF_SIZE`; the else branch of
line 380 reads nothing, giving 0. -/
def request_num_pending (req_wrptr req_rdptr : Nat) : Nat :=
  if req_wrptr ≠ req_rdptr then
    let np := (((req_wrptr : Int) - (req_rdptr : Int)) % ((CMD_BUF_PTR_MASK : Int) + 1)).toNat
    if np > CMD_BUF_SIZE then CMD_BUF_SIZE else np
  else 0

/-- Embeds the slot indices accessed by the request-queue dump loop
(lines 385-386): slot `(req_rdptr + i) & (CMD_BUF_SIZE - 1)` for each
`i < num_pending`. -/
def request_dump_slots (req_wrptr req_rdptr : Nat) : List Nat :=
  (List.range (request_num_pending req_wrptr req_rdptr)).map
    (fun i => (req_rdptr + i) &&& (CMD_BUF_SIZE - 1))

/-- Embeds the device-enumeration prologue of `main` (lines 229-233): if
`enumerate_devices()` returns no ids the script prints a message and
returns exit status 1 before any device is opened or accessed; otherwise
it proceeds with `pci_ids[0]`.  The remainder of `main` is abstracted as
the parameter `rest`, returning an exit status together with the list of
device accesses performed. -/
def noc_read_stress_main (pci_ids : List Nat) (rest : Nat → Nat × List Nat) :
    Nat × List Nat :=
  match pci_ids with
  | [] => (1, [])
  | device_id :: _ => rest device_id

/-- Embeds the prologue of `TestTTDevice.test_low_level_tt_device`
(nanobind/tests/test_py_tt_device.py lines 10-14): enumerate devices and
return early — performing no device access — when the list is empty;
otherwise run the loop body once per device id.  The per-device body is
abstracted as `body`, returning the accesses it performs. -/
def test_low_level_tt_device (pci_ids : List Nat) (body : Nat → List Nat) :
    List Nat :=
  if pci_ids.length = 0 then [] else (pci_ids.map body).flatten

/-! ## Topology discovery model

The topology-discovery engine itself is C++ code that is not among the
Python sources; only its Python test (`test_py_topology_discovery.py`) is.
The definitions below are therefore modelled from the specification. -/

/-- Modelled from the spec: the discovery configuration surface
`{no_remote_discovery, no_wait_for_eth_training, retrain_eth_count, ...}`
(spec section 6); only the fields relevant here are carried. -/
structure TopologyDiscoveryOptions where
  no_remote_discovery : Bool
  no_wait_for_eth_training : Bool
  retrain_eth_count : Nat

/-- Modelled from the spec: one `Chip` entry of the cluster descriptor,
with its process-local id and mmio-capability flag (spec section 3). -/
structure Chip where
  chip_id : Nat
  mmio_capable : Bool

/-- Modelled from the spec: the cluster descriptor owns the chip map. -/
structure ClusterDescriptor where
  chips : List Chip

/-- Modelled from the spec: `get_all_chips()` lists the ids of all chips
in the descriptor. -/
def get_all_chips (cd : ClusterDescriptor) : List Nat :=
  cd.chips.map (fun c => c.chip_id)

/-- Modelled from the spec: `is_chip_mmio_capable(id)` — the chip with the
given id is marked mmio-capable. -/
def is_chip_mmio_capable (cd : ClusterDescriptor) (id : Nat) : Bool :=
  cd.chips.any (fun c => (c.chip_id == id) && c.mmio_capable)

/-- Modelled from the spec: `TopologyDiscovery.create_cluster_descriptor`
(spec section 4.4, the code being C++ outside the Python sources).
Step 1 seeds the descriptor with one mmio-capable `Chip` per PCI-enumerated
device; step 2, the breadth-first remote walk over Ethernet links, runs
only when `no_remote_discovery` is false and is abstracted here as the
parameter `remote_walk`, returning the additional remotely discovered
chips. -/
def create_cluster_descriptor (opts : TopologyDiscoveryOptions)
    (pci_ids : List Nat) (remote_walk : List Chip → List Chip) :
    ClusterDescriptor :=
  let seeded := pci_ids.map (fun i => { chip_id := i, mmio_capable := true : Chip })
  if opts.no_remote_discovery then { chips := seeded }
  else { chips := seeded ++ remote_walk seeded }

/-! ## Helper lemmas -/

/-- Mask form of mod: the script masks with `3` to reduce modulo 4. -/
theorem and_three_eq_mod_four (x : Nat) : x &&& 3 = x % 4 := by
  have h := Nat.and_pow_two_sub_one_eq_mod x 2
  norm_num at h
  exact h

/-- Mask form of mod: the script masks with `7` to reduce modulo 8. -/
theorem and_seven_eq_mod_eight (x : Nat) : x &&& 7 = x % 8 := by
  have h := Nat.and_pow_two_sub_one_eq_mod x 3
  norm_num at h
  exact h

/-- Arithmetic form of `decode_sys_addr`: each field is a quotient of the
address by a power of two, reduced modulo the field width. -/
theorem decode_sys_addr_eq (addr : Nat) :
    decode_sys_addr addr =
      (addr / 2 ^ 54 % 2 ^ 6, addr / 2 ^ 48 % 2 ^ 6, addr / 2 ^ 42 % 2 ^ 6,
        addr / 2 ^ 36 % 2 ^ 6, addr % 2 ^ 36) := by
  have hm : ∀ x : Nat, x &&& (1 <<< 6) - 1 = x % 2 ^ 6 := fun x => by
    rw [Nat.one_shiftLeft]; exact Nat.and_pow_two_sub_one_eq_mod x 6
  have hl : ∀ x : Nat, x &&& (1 <<< 36) - 1 = x % 2 ^ 36 := fun x => by
    rw [Nat.one_shiftLeft]; exact Nat.and_pow_two_sub_one_eq_mod x 36
  show ((addr >>> (36 + 3 * 6)) &&& (1 <<< 6) - 1,
        (addr >>> (36 + 2 * 6)) &&& (1 <<< 6) - 1,
        (addr >>> (36 + 6)) &&& (1 <<< 6) - 1,
        (addr >>> 36) &&& (1 <<< 6) - 1,
        addr &&& (1 <<< 36) - 1) = _
  rw [hm, hm, hm, hm, hl]
  rw [Nat.shiftRight_eq_div_pow, Nat.shiftRight_eq_div_pow, Nat.shiftRight_eq_div_pow,
    Nat.shiftRight_eq_div_pow]

/-- Shifting a field left past a smaller value and or-ing is addition. -/
theorem shiftLeft_or_eq_add (k a b : Nat) (hb : b < 2 ^ k) :
    a <<< k ||| b = 2 ^ k * a + b := by
  rw [Nat.shiftLeft_eq, Nat.mul_comm]
  exact (Nat.mul_add_lt_is_or hb a).symm

/-! ## Claim theorems -/

/-- C1: decoding the packed layout `chip_y(6)|chip_x(6)|noc_y(6)|noc_x(6)|offset(36)`
(i.e. `chip_y <<< 54 ||| chip_x <<< 48 ||| noc_y <<< 42 ||| noc_x <<< 36 ||| offset`)
via `decode_sys_addr` recovers exactly the five fields, for all values within
the field widths. -/
theorem decode_sys_addr_round_trip (cy cx ny nx off : Nat) (hcy : cy < 2 ^ 6)
    (hcx : cx < 2 ^ 6) (hny : ny < 2 ^ 6) (hnx : nx < 2 ^ 6) (hoff : off < 2 ^ 36) :
    decode_sys_addr (cy <<< 54 ||| cx <<< 48 ||| ny <<< 42 ||| nx <<< 36 ||| off) =
      (cy, cx, ny, nx, off) := by
  simp only [Nat.or_assoc]
  rw [shiftLeft_or_eq_add 36 nx off hoff]
  rw [shiftLeft_or_eq_add 42 ny _ (by omega)]
  rw [shiftLeft_or_eq_add 48 cx _ (by omega)]
  rw [shiftLeft_or_eq_add 54 cy _ (by omega)]
  rw [decode_sys_addr_eq]
  refine Prod.ext ?_ (Prod.ext ?_ (Prod.ext ?_ (Prod.ext ?_ ?_))) <;> simp only [] <;> omega

/-- C1 witness: the round trip evaluated at `(1, 2, 3, 4, 5)`. -/
theorem decode_sys_addr_round_trip_witness :
    (1 : Nat) < 2 ^ 6 ∧ (2 : Nat) < 2 ^ 6 ∧ (3 : Nat) < 2 ^ 6 ∧ (4 : Nat) < 2 ^ 6 ∧
    (5 : Nat) < 2 ^ 36 ∧
    decode_sys_addr (1 <<< 54 ||| 2 <<< 48 ||| 3 <<< 42 ||| 4 <<< 36 ||| 5) =
      (1, 2, 3, 4, 5) :=
  ⟨by decide, by decide, by decide, by decide, by decide,
    decode_sys_addr_round_trip 1 2 3 4 5 (by decide) (by decide) (by decide) (by decide)
      (by decide)⟩

/-- C2: the mask-based full computation of `_is_full_4slot` (N = 4) and
`_is_full_8slot` (N = 8) holds exactly when the pointers differ but agree
modulo N, for every pair of counters. -/
theorem is_full_mask_iff_mod (wr rd : Nat) :
    (is_full_4slot wr rd = true ↔ wr ≠ rd ∧ wr % 4 = rd % 4) ∧
    (is_full_8slot wr rd = true ↔ wr ≠ rd ∧ wr % 8 = rd % 8) := by
  constructor <;>
    simp [is_full_4slot, is_full_8slot, and_three_eq_mod_four, and_seven_eq_mod_eight]

/-- C3 (code bug): pointers are stored by the hardware wrapped to
`[0, 2N)` by `CMD_BUF_PTR_MASK = 2N - 1` (the script itself advances the
response rdptr with that mask).  With unbounded counters wrptr = 8 and
rdptr = 7 — one enqueued-but-unconsumed slot — the stored pointer values
are `(0, 7)`, yet `_pending_4slot` computes `4 + 0 - 7 = -3` instead of
the true count `8 - 7 = 1`: the else branch adds N where the pointer wrap
period 2N is required. -/
theorem pending_4slot_wrap_bug :
    (8 : Int) % ((CMD_BUF_PTR_MASK : Int) + 1) = 0 ∧
    (7 : Int) % ((CMD_BUF_PTR_MASK : Int) + 1) = 7 ∧
    pending_4slot 0 7 = -3 ∧
    (8 : Int) - 7 = 1 ∧
    pending_4slot 0 7 ≠ (8 : Int) - 7 := by decide

/-- C4 counterexample: with a pending response and stored rdptr 7, the
`--read-resp` branch writes back rdptr `(7 + 1) & 7 = 0`, not `7 + 1 = 8`,
so the new pointer is not `rdptr_before + 1` for every starting value. -/
theorem read_resp_rdptr_wraps_at_seven :
    read_resp_step true 0 7 = some (3, 0) ∧ (0 : Nat) ≠ 7 + 1 := by decide

/-- C4 (amended): with a pending response (wrptr ≠ rdptr), the
`--read-resp` branch reads slot `rdptr mod 4` and writes back
`(rdptr + 1) mod 8` — the increment of rdptr modulo the pointer wrap
period 2N = 8 — which coincides with `rdptr + 1` whenever `rdptr < 7`. -/
theorem read_resp_advances_rdptr (wr rd : Nat) (h : wr ≠ rd) :
    read_resp_step true wr rd = some (rd % 4, (rd + 1) % 8) ∧
    (rd < 7 → (rd + 1) % 8 = rd + 1) := by
  have h3 : CMD_BUF_SIZE - 1 = 3 := rfl
  have h7 : CMD_BUF_PTR_MASK = 7 := rfl
  constructor
  · simp [read_resp_step, h, h3, h7, and_three_eq_mod_four, and_seven_eq_mod_eight]
  · intro hlt
    omega

/-- C4 witness: the amended dequeue behaviour evaluated at wrptr 1, rdptr 0. -/
theorem read_resp_advances_rdptr_witness :
    (1 : Nat) ≠ 0 ∧
    (read_resp_step true 1 0 = some (0 % 4, (0 + 1) % 8) ∧
      ((0 : Nat) < 7 → (0 + 1) % 8 = 0 + 1)) :=
  ⟨by decide, read_resp_advances_rdptr 1 0 (by decide)⟩

/-- C5: when a queue's wrptr equals its rdptr, the `--read-resp` branch
dequeues nothing and writes no new rdptr, and the request-queue dump reads
zero pending commands. -/
theorem empty_queue_dequeue_noop (read_resp : Bool) (p : Nat) :
    read_resp_step read_resp p p = none ∧ request_num_pending p p = 0 ∧
      request_dump_slots p p = [] := by
  refine ⟨?_, ?_, ?_⟩ <;> simp [read_resp_step, request_num_pending, request_dump_slots]

/-- C6: the derived queue-layout constants match the protocol layout —
request queue at `0x11000 + 128 = 0x11080`, header = 32-byte counters,
16-byte wrptr at base+32, 16-byte rdptr at base+48, then 32-byte slots
(4 per host/response queue), giving a 192-byte stride; hence request
wrptr/rdptr at 0x110A0/0x110B0, response queue at 0x11200 with
wrptr/rdptr at 0x11220/0x11230, and 320-byte 8-slot node queues. -/
theorem queue_layout_constants :
    REQUEST_CMD_QUEUE_BASE = 0x11000 + 128 ∧
    REQUEST_CMD_QUEUE_BASE = 0x11080 ∧
    CMD_COUNTERS_SIZE_BYTES = 32 ∧
    REMOTE_UPDATE_PTR_SIZE_BYTES = 16 ∧
    CMD_SIZE_BYTES = 32 ∧
    CMD_BUF_SIZE = 4 ∧
    CMD_Q_SIZE_BYTES = 192 ∧
    (∀ base : Nat, wrptr_addr base = base + 32) ∧
    (∀ base : Nat, rdptr_addr base = base + 48) ∧
    REQUEST_ROUTING_CMD_QUEUE_BASE = REQUEST_CMD_QUEUE_BASE + 64 ∧
    RESPONSE_ROUTING_CMD_QUEUE_BASE = RESPONSE_CMD_QUEUE_BASE + 64 ∧
    REQ_WRPTR_ADDR = 0x110A0 ∧
    REQ_RDPTR_ADDR = 0x110B0 ∧
    RESPONSE_CMD_QUEUE_BASE = 0x11200 ∧
    RESP_WRPTR_ADDR = 0x11220 ∧
    RESP_RDPTR_ADDR = 0x11230 ∧
    CMD_COUNTERS_SIZE_BYTES + 2 * REMOTE_UPDATE_PTR_SIZE_BYTES
        + NODE_CMD_BUF_SIZE * CMD_SIZE_BYTES = 320 ∧
    NODE_REQ_CMD_Q1_BASE - NODE_REQ_CMD_Q0_BASE = 320 ∧
    NODE_RESP_CMD_Q1_BASE - NODE_RESP_CMD_Q0_BASE = 320 :=
  ⟨by decide, by decide, by decide, by decide, by decide, by decide, by decide,
    fun base => rfl,
    fun base => by unfold rdptr_addr CMD_COUNTERS_SIZE_BYTES REMOTE_UPDATE_PTR_SIZE_BYTES; omega,
    by decide, by decide, by decide, by decide, by decide, by decide, by decide, by decide,
    by decide, by decide⟩

/-- C7 (spec-modelled): with `no_remote_discovery = true`, the produced
cluster descriptor contains only mmio-capable chips — the count of chips
for which `is_chip_mmio_capable` is false is zero, for every PCI result
and every remote walk. -/
theorem no_remote_discovery_only_mmio (opts : TopologyDiscoveryOptions)
    (pci_ids : List Nat) (remote_walk : List Chip → List Chip)
    (h : opts.no_remote_discovery = true) :
    (List.filter
        (fun id => !(is_chip_mmio_capable (create_cluster_descriptor opts pci_ids remote_walk) id))
        (get_all_chips (create_cluster_descriptor opts pci_ids remote_walk))).length = 0 := by
  rw [List.length_eq_zero, List.filter_eq_nil_iff]
  intro id hid
  simp only [create_cluster_descriptor, h, if_true, get_all_chips, List.map_map, List.mem_map,
    Function.comp] at hid
  obtain ⟨i, hi, rfl⟩ := hid
  simp only [is_chip_mmio_capable, create_cluster_descriptor, h, if_true, Bool.not_eq_true',
    Bool.not_eq_false, List.any_eq_true]
  exact ⟨{ chip_id := i, mmio_capable := true }, List.mem_map_of_mem _ hi, by simp⟩

/-- C7 witness: discovery over two PCI chips with a remote walk that would
contribute a non-mmio chip, evaluated with remote discovery suppressed. -/
theorem no_remote_discovery_only_mmio_witness :
    ({ no_remote_discovery := true, no_wait_for_eth_training := false, retrain_eth_count := 0 :
        TopologyDiscoveryOptions }).no_remote_discovery = true ∧
    (List.filter
        (fun id => !(is_chip_mmio_capable
          (create_cluster_descriptor ⟨true, false, 0⟩ [0, 1]
            (fun _ => [{ chip_id := 5, mmio_capable := false }])) id))
        (get_all_chips (create_cluster_descriptor ⟨true, false, 0⟩ [0, 1]
          (fun _ => [{ chip_id := 5, mmio_capable := false }])))).length = 0 :=
  ⟨rfl, no_remote_discovery_only_mmio ⟨true, false, 0⟩ [0, 1]
    (fun _ => [{ chip_id := 5, mmio_capable := false }]) rfl⟩

/-- C8: with zero enumerated PCI devices, the stress script returns exit
status 1 having performed no device access, and the test entry point
returns early with no device access, whatever the rest of either program
would do. -/
theorem zero_devices_nonfatal (rest : Nat → Nat × List Nat) (body : Nat → List Nat) :
    noc_read_stress_main [] rest = (1, []) ∧ test_low_level_tt_device [] body = [] :=
  ⟨rfl, rfl⟩

/-- C9: for any distinct pointer values read from hardware, the
request-queue dump reads at most `CMD_BUF_SIZE = 4` slots, and every slot
index accessed is below 4 — no read falls outside the slot array. -/
theorem request_dump_bounded (wr rd : Nat) (h : wr ≠ rd) :
    (request_dump_slots wr rd).length ≤ CMD_BUF_SIZE ∧
    ∀ s ∈ request_dump_slots wr rd, s < CMD_BUF_SIZE := by
  have hlen : (request_dump_slots wr rd).length = request_num_pending wr rd := by
    simp [request_dump_slots]
  constructor
  · rw [hlen]
    unfold request_num_pending
    rw [if_pos h]
    dsimp only
    split
    · exact Nat.le_refl _
    · omega
  · intro s hs
    simp only [request_dump_slots, List.mem_map, List.mem_range] at hs
    obtain ⟨i, hi, rfl⟩ := hs
    have h3 : CMD_BUF_SIZE - 1 = 3 := rfl
    have h4 : CMD_BUF_SIZE = 4 := rfl
    rw [h3, and_three_eq_mod_four, h4]
    omega

/-- C9 witness: the dump bounds evaluated at wrptr 1, rdptr 0. -/
theorem request_dump_bounded_witness :
    (1 : Nat) ≠ 0 ∧
    ((request_dump_slots 1 0).length ≤ CMD_BUF_SIZE ∧
      ∀ s ∈ request_dump_slots 1 0, s < CMD_BUF_SIZE) :=
  ⟨by decide, request_dump_bounded 1 0 (by decide)⟩

/-- C10: `decode_sys_addr` is total on naturals, each chip/noc field of its
result is below 2^6 and the offset below 2^36, and the result depends only
on the low 60 bits of the address. -/
theorem decode_sys_addr_total_bounds (addr : Nat) :
    (decode_sys_addr addr).1 < 2 ^ 6 ∧
    (decode_sys_addr addr).2.1 < 2 ^ 6 ∧
    (decode_sys_addr addr).2.2.1 < 2 ^ 6 ∧
    (decode_sys_addr addr).2.2.2.1 < 2 ^ 6 ∧
    (decode_sys_addr addr).2.2.2.2 < 2 ^ 36 ∧
    decode_sys_addr addr = decode_sys_addr (addr % 2 ^ 60) := by
  rw [decode_sys_addr_eq, decode_sys_addr_eq]
  refine ⟨?_, ?_, ?_, ?_, ?_, ?_⟩
  · show addr / 2 ^ 54 % 2 ^ 6 < 2 ^ 6
    omega
  · show addr / 2 ^ 48 % 2 ^ 6 < 2 ^ 6
    omega
  · show addr / 2 ^ 42 % 2 ^ 6 < 2 ^ 6
    omega
  · show addr / 2 ^ 36 % 2 ^ 6 < 2 ^ 6
    omega
  · show addr % 2 ^ 36 < 2 ^ 36
    omega
  · simp only [Prod.mk.injEq]
    refine ⟨by omega, by omega, by omega, by omega, by omega⟩
